import Mathlib

/-
Verification of the wormhole-game fixed-timestep simulation core.

The embedding is a faithful translation of the TypeScript source into Lean:
numbers are modelled as rationals, and the host-environment functions the
source calls (Math.random, Math.cos, Math.sin, Math.sqrt, Math.PI) are
supplied by an explicit oracle structure `RealOps`; the global entity-id
counters and the position in the random stream are threaded through a `Ctx`
state value.  Distance comparisons of the form `a.sub(b).length() <= c` are
encoded without square roots via the exact equivalences
`Real.sqrt s <= c <-> (0 <= c /\ s <= c ^ 2)` and
`Real.sqrt s < c <-> (0 < c /\ s < c ^ 2)` (valid because `s = x^2 + y^2 >= 0`
and `Real.sqrt s >= 0`), keeping every definition computable on rationals.
-/

/-- Oracle for the host-environment numeric functions the source uses:
`rand n` is the result of the n-th call to Math.random, and `cos`, `sin`,
`sqrt`, `pi` stand for Math.cos, Math.sin, Math.sqrt, Math.PI. -/
structure RealOps where
  rand : Nat → ℚ
  cos : ℚ → ℚ
  sin : ℚ → ℚ
  sqrt : ℚ → ℚ
  pi : ℚ

/-- Threaded global state: the index of the next Math.random draw and the
module-level id counters (`hazardIdCounter` in Hazard.ts, `Orb.nextId`). -/
structure Ctx where
  k : Nat
  nextHazardId : Nat
  nextOrbId : Nat
deriving DecidableEq, Repr

/-- Consume one Math.random draw from the stream. -/
def Ctx.draw (ops : RealOps) (c : Ctx) : ℚ × Ctx :=
  (ops.rand c.k, { c with k := c.k + 1 })

/-- Allocate the next hazard id (`hazardIdCounter++`). -/
def Ctx.freshHazardId (c : Ctx) : Nat × Ctx :=
  (c.nextHazardId, { c with nextHazardId := c.nextHazardId + 1 })

/-- Allocate the next orb id (`Orb.nextId++`). -/
def Ctx.freshOrbId (c : Ctx) : Nat × Ctx :=
  (c.nextOrbId, { c with nextOrbId := c.nextOrbId + 1 })

/-- 2D vector (Vec2.ts). -/
structure Vec2 where
  x : ℚ
  y : ℚ
deriving DecidableEq, Repr

/-- Vec2.zero. -/
def Vec2.zero : Vec2 := ⟨0, 0⟩

/-- Vec2.add. -/
def Vec2.add (a b : Vec2) : Vec2 := ⟨a.x + b.x, a.y + b.y⟩

/-- Vec2.sub. -/
def Vec2.sub (a b : Vec2) : Vec2 := ⟨a.x - b.x, a.y - b.y⟩

/-- Vec2.mul (scalar). -/
def Vec2.mul (a : Vec2) (s : ℚ) : Vec2 := ⟨a.x * s, a.y * s⟩

/-- Vec2.div (scalar). -/
def Vec2.div (a : Vec2) (s : ℚ) : Vec2 := ⟨a.x / s, a.y / s⟩

/-- Vec2.lengthSq. -/
def Vec2.lengthSq (v : Vec2) : ℚ := v.x * v.x + v.y * v.y

/-- Vec2.length: `Math.sqrt(x*x + y*y)`, through the oracle. -/
def Vec2.length (ops : RealOps) (v : Vec2) : ℚ := ops.sqrt v.lengthSq

/-- Vec2.fromAngle. -/
def Vec2.fromAngle (ops : RealOps) (angle : ℚ) : Vec2 := ⟨ops.cos angle, ops.sin angle⟩

/-- Vec2.normalize: divide by the length unless it is zero. -/
def Vec2.normalize (ops : RealOps) (v : Vec2) : Vec2 :=
  let len := v.length ops
  if len = 0 then ⟨0, 0⟩ else v.div len

/-- Vec2.clamp: rescale to `maxLength` when the length exceeds it. -/
def Vec2.clamp (ops : RealOps) (v : Vec2) (maxLength : ℚ) : Vec2 :=
  let len := v.length ops
  if maxLength < len then (v.normalize ops).mul maxLength else ⟨v.x, v.y⟩

/-- Vec2.lerp. -/
def Vec2.lerp (a b : Vec2) (t : ℚ) : Vec2 :=
  ⟨a.x + (b.x - a.x) * t, a.y + (b.y - a.y) * t⟩

/-- Vec2.dot. -/
def Vec2.dot (a b : Vec2) : ℚ := a.x * b.x + a.y * b.y

/-- Vec2.clone (value copy). -/
def Vec2.clone (v : Vec2) : Vec2 := ⟨v.x, v.y⟩

/-- Encodes `p.sub(q).length() <= c` exactly, without a square root:
for `s >= 0`, `Real.sqrt s <= c` iff `0 <= c` and `s <= c ^ 2`. -/
def distLe (p q : Vec2) (c : ℚ) : Bool :=
  decide (0 ≤ c ∧ (p.sub q).lengthSq ≤ c ^ 2)

/-- Encodes `p.sub(q).length() < c` exactly, without a square root:
for `s >= 0`, `Real.sqrt s < c` iff `0 < c` and `s < c ^ 2`. -/
def distLt (p q : Vec2) (c : ℚ) : Bool :=
  decide (0 < c ∧ (p.sub q).lengthSq < c ^ 2)

/-- Encodes `p.sub(q).length() >= c`, the negation of `distLt`. -/
def distGe (p q : Vec2) (c : ℚ) : Bool := !(distLt p q c)

-- Configuration constants (config.ts and entity modules).

/-- config.ts PHYSICS_DT = 1000 / 60. -/
def PHYSICS_DT : ℚ := 1000 / 60

/-- config.ts SHIP_ROTATION_SPEED. -/
def SHIP_ROTATION_SPEED : ℚ := 0.06

/-- config.ts SHIP_THRUST. -/
def SHIP_THRUST : ℚ := 0.12

/-- config.ts SHIP_DRAG. -/
def SHIP_DRAG : ℚ := 0.992

/-- config.ts SHIP_MAX_SPEED. -/
def SHIP_MAX_SPEED : ℚ := 5

/-- config.ts WORLD_WIDTH. -/
def WORLD_WIDTH : ℚ := 1200

/-- config.ts WORLD_HEIGHT. -/
def WORLD_HEIGHT : ℚ := 800

/-- Ship.ts MAX_CARGO_SLOTS. -/
def MAX_CARGO_SLOTS : Nat := 4

/-- Ship.ts MAX_LIVES. -/
def MAX_LIVES : ℤ := 3

/-- Ship.ts INVULNERABILITY_TIME = 3 seconds at 60fps. -/
def INVULNERABILITY_TIME : ℤ := 3 * 60

/-- Ship.ts SHIP_COLLISION_RADIUS. -/
def SHIP_COLLISION_RADIUS : ℚ := 15

/-- Orb.ts ORB_RADIUS. -/
def ORB_RADIUS : ℚ := 12

/-- Orb.ts ORB_BOB_SPEED. -/
def ORB_BOB_SPEED : ℚ := 0.08

/-- Wormhole.ts WORMHOLE_RADIUS (the inner core zone). -/
def WORMHOLE_RADIUS : ℚ := 80

/-- Wormhole.ts WORMHOLE_BANKING_RADIUS. -/
def WORMHOLE_BANKING_RADIUS : ℚ := 120

/-- Wormhole.ts WORMHOLE_ROTATION_SPEED (radians per tick). -/
def WORMHOLE_ROTATION_SPEED : ℚ := 0.018

-- Orbs (Orb.ts).

/-- Orb type tags (enum OrbType). -/
inductive OrbType where
  | red
  | blue
  | green
  | gold
deriving DecidableEq, Repr

/-- Orb entity. -/
structure Orb where
  id : Nat
  position : Vec2
  type : OrbType
  bobPhase : ℚ
deriving DecidableEq, Repr

/-- Orb constructor: allocates `Orb.nextId++` and draws a random bob phase. -/
def Orb.new (ops : RealOps) (c : Ctx) (position : Vec2) (type : OrbType) : Orb × Ctx :=
  let (i, c1) := c.freshOrbId
  let (r, c2) := c1.draw ops
  ({ id := i, position := position, type := type, bobPhase := r * ops.pi * 2 }, c2)

/-- Orb.update: advance the bob animation phase. -/
def Orb.update (o : Orb) : Orb := { o with bobPhase := o.bobPhase + ORB_BOB_SPEED }

/-- Orb.collidesWith: distance from ship at most shipRadius + ORB_RADIUS. -/
def Orb.collidesWith (o : Orb) (shipPosition : Vec2) (shipRadius : ℚ) : Bool :=
  distLe o.position shipPosition (shipRadius + ORB_RADIUS)

/-- Orb.getRandomType applied to the Math.random draw `r`: cumulative-weight
sampling over ORB_SPAWN_WEIGHTS in declaration order red, blue, green, gold. -/
def Orb.getRandomType (r : ℚ) : OrbType :=
  if r ≤ 0.40 then OrbType.red
  else if r ≤ 0.75 then OrbType.blue
  else if r ≤ 0.95 then OrbType.green
  else if r ≤ 1 then OrbType.gold
  else OrbType.red

-- Ship (Ship.ts).

/-- Ship entity with physics state and cargo system. -/
structure Ship where
  position : Vec2
  velocity : Vec2
  angle : ℚ
  previousPosition : Vec2
  previousAngle : ℚ
  thrusting : Bool
  rotatingLeft : Bool
  rotatingRight : Bool
  cargo : List (Option OrbType)
  lives : ℤ
  invulnerabilityTimer : ℤ
  isDead : Bool
  speedBoost : ℚ
  color : String
deriving DecidableEq, Repr

/-- Ship constructor. -/
def Ship.new (ops : RealOps) (x y : ℚ) (color : String) : Ship :=
  { position := ⟨x, y⟩
    velocity := Vec2.zero
    angle := -(ops.pi) / 2
    previousPosition := ⟨x, y⟩
    previousAngle := -(ops.pi) / 2
    thrusting := false
    rotatingLeft := false
    rotatingRight := false
    cargo := List.replicate MAX_CARGO_SLOTS none
    lives := MAX_LIVES
    invulnerabilityTimer := 0
    isDead := false
    speedBoost := 1
    color := color }

/-- Ship.savePreviousState. -/
def Ship.savePreviousState (s : Ship) : Ship :=
  { s with previousPosition := s.position.clone, previousAngle := s.angle }

/-- Ship.wrapPosition: wrap position (and the interpolation snapshot) across
the four world edges; each axis is an if / else-if pair. -/
def wrapPosition (pos prev : Vec2) : Vec2 × Vec2 :=
  let xs :=
    if pos.x < 0 then (pos.x + WORLD_WIDTH, prev.x + WORLD_WIDTH)
    else if WORLD_WIDTH < pos.x then (pos.x - WORLD_WIDTH, prev.x - WORLD_WIDTH)
    else (pos.x, prev.x)
  let ys :=
    if pos.y < 0 then (pos.y + WORLD_HEIGHT, prev.y + WORLD_HEIGHT)
    else if WORLD_HEIGHT < pos.y then (pos.y - WORLD_HEIGHT, prev.y - WORLD_HEIGHT)
    else (pos.y, prev.y)
  (⟨xs.1, ys.1⟩, ⟨xs.2, ys.2⟩)

/-- Ship.update: rotation, thrust, speed clamp, drag, integration, toroidal
wrap, invulnerability countdown, speed-boost reset. -/
def Ship.update (ops : RealOps) (s : Ship) : Ship :=
  if s.isDead then s else
  let angle1 := if s.rotatingLeft then s.angle - SHIP_ROTATION_SPEED else s.angle
  let angle2 := if s.rotatingRight then angle1 + SHIP_ROTATION_SPEED else angle1
  let v1 :=
    if s.thrusting then
      s.velocity.add ((Vec2.fromAngle ops angle2).mul (SHIP_THRUST * s.speedBoost))
    else s.velocity
  let v2 := v1.clamp ops (SHIP_MAX_SPEED * s.speedBoost)
  let v3 := v2.mul SHIP_DRAG
  let p1 := s.position.add v3
  let w := wrapPosition p1 s.previousPosition
  let timer :=
    if 0 < s.invulnerabilityTimer then s.invulnerabilityTimer - 1
    else s.invulnerabilityTimer
  { s with
    angle := angle2
    velocity := v3
    position := w.1
    previousPosition := w.2
    invulnerabilityTimer := timer
    speedBoost := 1 }

/-- Ship.isInvulnerable. -/
def Ship.isInvulnerable (s : Ship) : Bool := decide (0 < s.invulnerabilityTimer)

/-- Ship.getCargoCount: number of filled slots. -/
def Ship.getCargoCount (s : Ship) : Nat := (s.cargo.filter fun it => it.isSome).length

/-- Ship.isCargoFull. -/
def Ship.isCargoFull (s : Ship) : Bool := decide (MAX_CARGO_SLOTS ≤ s.getCargoCount)

/-- Ship.isCargoEmpty. -/
def Ship.isCargoEmpty (s : Ship) : Bool := decide (s.getCargoCount = 0)

/-- Ship.addCargo: fill the first empty slot, fail if none. -/
def Ship.addCargo (s : Ship) (orbType : OrbType) : Ship × Bool :=
  match s.cargo.findIdx? fun slot => slot.isNone with
  | none => (s, false)
  | some i => ({ s with cargo := s.cargo.set i (some orbType) }, true)

/-- Ship.clearCargo: return the filled slots in order and empty every slot. -/
def Ship.clearCargo (s : Ship) : List OrbType × Ship :=
  (s.cargo.filterMap id, { s with cargo := List.replicate s.cargo.length none })

/-- Ship.removeCargoAt. -/
def Ship.removeCargoAt (s : Ship) (slotIndex : ℤ) : Option OrbType × Ship :=
  if slotIndex < 0 ∨ (MAX_CARGO_SLOTS : ℤ) ≤ slotIndex then (none, s)
  else
    let i := slotIndex.toNat
    ((s.cargo.get? i).join, { s with cargo := s.cargo.set i none })

/-- Ship.takeDamage: no-op while invulnerable or dead, otherwise lose a life,
clear cargo, start the invulnerability window, and report death. -/
def Ship.takeDamage (s : Ship) : Ship × Bool :=
  if s.isInvulnerable || s.isDead then (s, false)
  else
    let s1 := { s with lives := s.lives - 1, invulnerabilityTimer := INVULNERABILITY_TIME }
    let s2 := (s1.clearCargo).2
    if s2.lives ≤ 0 then ({ s2 with isDead := true }, true) else (s2, false)

/-- Ship.applySpeedBoost: max-combine with the current multiplier. -/
def Ship.applySpeedBoost (s : Ship) (multiplier : ℚ) : Ship :=
  { s with speedBoost := max s.speedBoost multiplier }

/-- Ship.getCargo (copy of the cargo array). -/
def Ship.getCargo (s : Ship) : List (Option OrbType) := s.cargo

-- Wormhole hub (Wormhole.ts).

/-- Wormhole entity: shared rotation / pulse state at the world center. -/
structure Wormhole where
  position : Vec2
  rotation : ℚ
  pulsePhase : ℚ
  pulseSpeed : ℚ
deriving DecidableEq, Repr

/-- Wormhole constructor. -/
def Wormhole.new : Wormhole :=
  { position := ⟨WORLD_WIDTH / 2, WORLD_HEIGHT / 2⟩
    rotation := 0
    pulsePhase := 0
    pulseSpeed := 0.05 }

/-- Wormhole.update: advance rotation and pulse phase. -/
def Wormhole.update (w : Wormhole) : Wormhole :=
  { w with
    rotation := w.rotation + WORMHOLE_ROTATION_SPEED
    pulsePhase := w.pulsePhase + w.pulseSpeed }

/-- Wormhole.isInBankingZone: distance at most WORMHOLE_BANKING_RADIUS. -/
def Wormhole.isInBankingZone (w : Wormhole) (position : Vec2) : Bool :=
  distLe position w.position WORMHOLE_BANKING_RADIUS

/-- Wormhole.isInWormhole: distance at most WORMHOLE_RADIUS (the core). -/
def Wormhole.isInWormhole (w : Wormhole) (position : Vec2) : Bool :=
  distLe position w.position WORMHOLE_RADIUS

-- Hazards (Hazard.ts).

/-- Hazard type tags (enum HazardType). -/
inductive HazardType where
  | asteroid
  | seeker
  | mine
  | nuke
deriving DecidableEq, Repr

/-- Asteroid hazard: linear motion bouncing off the world boundary. -/
structure Asteroid where
  id : Nat
  position : Vec2
  velocity : Vec2
  radius : ℚ
  lifetime : ℤ
  active : Bool
  rotation : ℚ
  rotationSpeed : ℚ
  isLarge : Bool
  shapeOffsets : List ℚ
deriving DecidableEq, Repr

/-- Asteroid maxLifetime = 15 seconds at 60fps. -/
def Asteroid.maxLifetime : ℤ := 15 * 60

/-- Asteroid constructor: random rotation, rotation speed and 8 shape
offsets, radius 35 when large else 20, full lifetime. -/
def Asteroid.new (ops : RealOps) (c : Ctx) (position velocity : Vec2)
    (isLarge : Bool) : Asteroid × Ctx :=
  let (i, c1) := c.freshHazardId
  let (r1, c2) := c1.draw ops
  let (r2, c3) := c2.draw ops
  let rec offsets : Nat → Ctx → List ℚ × Ctx
    | 0, cc => ([], cc)
    | n + 1, cc =>
      let (r, cc1) := cc.draw ops
      let (rest, cc2) := offsets n cc1
      ((0.8 + r * 0.4) :: rest, cc2)
  let (offs, c4) := offsets 8 c3
  ({ id := i
     position := position
     velocity := velocity
     radius := if isLarge then 35 else 20
     lifetime := Asteroid.maxLifetime
     active := true
     rotation := r1 * ops.pi * 2
     rotationSpeed := (r2 - 0.5) * 0.1
     isLarge := isLarge
     shapeOffsets := offs }, c4)

/-- Asteroid.update: move, spin, bounce off the four walls, age. -/
def Asteroid.update (a : Asteroid) : Asteroid :=
  if !a.active then a else
  let p1 := a.position.add a.velocity
  let rot := a.rotation + a.rotationSpeed
  let xb :=
    if p1.x < a.radius then (a.radius, |a.velocity.x|)
    else if WORLD_WIDTH - a.radius < p1.x then (WORLD_WIDTH - a.radius, -|a.velocity.x|)
    else (p1.x, a.velocity.x)
  let yb :=
    if p1.y < a.radius then (a.radius, |a.velocity.y|)
    else if WORLD_HEIGHT - a.radius < p1.y then (WORLD_HEIGHT - a.radius, -|a.velocity.y|)
    else (p1.y, a.velocity.y)
  { a with
    position := ⟨xb.1, yb.1⟩
    velocity := ⟨xb.2, yb.2⟩
    rotation := rot
    lifetime := a.lifetime - 1 }

/-- Asteroid.collidesWith. -/
def Asteroid.collidesWith (a : Asteroid) (shipPosition : Vec2) (shipRadius : ℚ) : Bool :=
  a.active && distLe a.position shipPosition (a.radius + shipRadius)

/-- Asteroid.isExpired. -/
def Asteroid.isExpired (a : Asteroid) : Bool := decide (a.lifetime ≤ 0)

/-- Seeker drone hazard.  The source stores a mutable reference to the target
Ship and reads `ship.position` each tick; here `targetShip` holds the
position that reference would yield (the claims never move the target),
`none` when no target has been assigned yet. -/
structure SeekerDrone where
  id : Nat
  position : Vec2
  velocity : Vec2
  radius : ℚ
  lifetime : ℤ
  active : Bool
  wobblePhase : ℚ
  maxSpeed : ℚ
  targetShip : Option Vec2
deriving DecidableEq, Repr

/-- SeekerDrone maxLifetime = 20 seconds at 60fps. -/
def SeekerDrone.maxLifetime : ℤ := 20 * 60

/-- SeekerDrone constructor: 60% of ship max speed, zero velocity, full
lifetime, random wobble phase, no target. -/
def SeekerDrone.new (ops : RealOps) (c : Ctx) (position : Vec2) : SeekerDrone × Ctx :=
  let (i, c1) := c.freshHazardId
  let (r, c2) := c1.draw ops
  ({ id := i
     position := position
     velocity := Vec2.zero
     radius := 12
     lifetime := SeekerDrone.maxLifetime
     active := true
     wobblePhase := r * ops.pi * 2
     maxSpeed := SHIP_MAX_SPEED * 0.6
     targetShip := none }, c2)

/-- SeekerDrone.setTarget. -/
def SeekerDrone.setTarget (s : SeekerDrone) (shipPosition : Vec2) : SeekerDrone :=
  { s with targetShip := some shipPosition }

/-- SeekerDrone.update: inactive or targetless drones return unchanged
(the early `return` skips even the lifetime decrement); otherwise advance the
wobble, steer a wobbled unit vector toward the target at maxSpeed, integrate,
wrap toroidally, and age. -/
def SeekerDrone.update (ops : RealOps) (s : SeekerDrone) : SeekerDrone :=
  if !s.active then s else
  match s.targetShip with
  | none => s
  | some shipPos =>
    let wob := s.wobblePhase + 0.1
    let toPlayer := shipPos.sub s.position
    let distance := toPlayer.length ops
    let vel :=
      if 0 < distance then
        let direction := toPlayer.normalize ops
        let wobbleX := ops.cos wob * 0.3
        let wobbleY := ops.sin (wob * 1.3) * 0.3
        let direction2 := (Vec2.mk (direction.x + wobbleX) (direction.y + wobbleY)).normalize ops
        direction2.mul s.maxSpeed
      else s.velocity
    let p1 := s.position.add vel
    let px := if p1.x < 0 then p1.x + WORLD_WIDTH else p1.x
    let px2 := if WORLD_WIDTH < px then px - WORLD_WIDTH else px
    let py := if p1.y < 0 then p1.y + WORLD_HEIGHT else p1.y
    let py2 := if WORLD_HEIGHT < py then py - WORLD_HEIGHT else py
    { s with
      wobblePhase := wob
      velocity := vel
      position := ⟨px2, py2⟩
      lifetime := s.lifetime - 1 }

/-- SeekerDrone.collidesWith. -/
def SeekerDrone.collidesWith (s : SeekerDrone) (shipPosition : Vec2) (shipRadius : ℚ) : Bool :=
  s.active && distLe s.position shipPosition (s.radius + shipRadius)

/-- SeekerDrone.isExpired. -/
def SeekerDrone.isExpired (s : SeekerDrone) : Bool := decide (s.lifetime ≤ 0)

/-- Mine hazard: stationary, arms after a delay. -/
structure Mine where
  id : Nat
  position : Vec2
  radius : ℚ
  armingRadius : ℚ
  lifetime : ℤ
  armingTime : ℤ
  active : Bool
  armed : Bool
  blinkPhase : ℚ
deriving DecidableEq, Repr

/-- Mine maxLifetime = 30 seconds at 60fps. -/
def Mine.maxLifetime : ℤ := 30 * 60

/-- Mine constructor. -/
def Mine.new (c : Ctx) (position : Vec2) : Mine × Ctx :=
  let (i, c1) := c.freshHazardId
  ({ id := i
     position := position
     radius := 10
     armingRadius := 60
     lifetime := Mine.maxLifetime
     armingTime := 2 * 60
     active := true
     armed := false
     blinkPhase := 0 }, c1)

/-- Mine.update: count down the arming delay, blink when armed, age. -/
def Mine.update (m : Mine) : Mine :=
  if !m.active then m else
  let m1 :=
    if !m.armed then
      let at1 := m.armingTime - 1
      { m with armingTime := at1, armed := decide (at1 ≤ 0) }
    else { m with blinkPhase := m.blinkPhase + 0.2 }
  { m1 with lifetime := m.lifetime - 1 }

/-- Mine.collidesWith: blast radius once armed, body contact before. -/
def Mine.collidesWith (m : Mine) (shipPosition : Vec2) (shipRadius : ℚ) : Bool :=
  if !m.active then false
  else if m.armed then distLe m.position shipPosition (m.armingRadius + shipRadius)
  else distLe m.position shipPosition (m.radius + shipRadius)

/-- Mine.isExpired. -/
def Mine.isExpired (m : Mine) : Bool := decide (m.lifetime ≤ 0)

/-- Nuke hazard: countdown, then an expanding blast with safe zones. -/
structure Nuke where
  id : Nat
  position : Vec2
  radius : ℚ
  maxRadius : ℚ
  lifetime : ℤ
  maxLifetime : ℤ
  countdownTime : ℤ
  detonated : Bool
  explosionTime : ℤ
  maxExplosionTime : ℤ
  active : Bool
  safeZoneRadius : ℚ
deriving DecidableEq, Repr

/-- Nuke constructor: 5 second countdown plus 2 second explosion. -/
def Nuke.new (c : Ctx) (position : Vec2) : Nuke × Ctx :=
  let (i, c1) := c.freshHazardId
  ({ id := i
     position := position
     radius := 0
     maxRadius := 375
     lifetime := 5 * 60 + 2 * 60
     maxLifetime := 5 * 60 + 2 * 60
     countdownTime := 5 * 60
     detonated := false
     explosionTime := 0
     maxExplosionTime := 2 * 60
     active := true
     safeZoneRadius := 50 }, c1)

/-- Nuke.update: count down then expand the blast radius (linear ramp capped
at maxRadius), deactivating once the explosion duration completes. -/
def Nuke.update (n : Nuke) : Nuke :=
  if !n.active then n else
  let n1 :=
    if !n.detonated then
      let ct := n.countdownTime - 1
      if ct ≤ 0 then { n with countdownTime := ct, detonated := true, explosionTime := 0 }
      else { n with countdownTime := ct }
    else
      let et := n.explosionTime + 1
      let progress : ℚ := (et : ℚ) / (n.maxExplosionTime : ℚ)
      let r := n.maxRadius * min (progress * 1.5) 1
      if n.maxExplosionTime ≤ et then
        { n with explosionTime := et, radius := r, active := false }
      else { n with explosionTime := et, radius := r }
  { n1 with lifetime := n.lifetime - 1 }

/-- The four world corners checked by Nuke.collidesWith. -/
def worldCorners : List Vec2 :=
  [⟨0, 0⟩, ⟨WORLD_WIDTH, 0⟩, ⟨0, WORLD_HEIGHT⟩, ⟨WORLD_WIDTH, WORLD_HEIGHT⟩]

/-- Nuke.collidesWith: active and detonated, outside the central safe zone,
outside all four 80-unit corner safe zones, and inside the blast radius. -/
def Nuke.collidesWith (n : Nuke) (shipPosition : Vec2) (shipRadius : ℚ) : Bool :=
  if !n.active || !n.detonated then false
  else if distLe shipPosition n.position n.safeZoneRadius then false
  else if worldCorners.any fun corner => distLt shipPosition corner 80 then false
  else distLe n.position shipPosition (n.radius + shipRadius)

/-- Nuke.isExpired. -/
def Nuke.isExpired (n : Nuke) : Bool := decide (n.lifetime ≤ 0)

/-- Speed boost zone (not a Hazard): an area trigger. -/
structure SpeedBoostZone where
  id : Nat
  position : Vec2
  radius : ℚ
  lifetime : ℤ
  maxLifetime : ℤ
  active : Bool
  boostMultiplier : ℚ
deriving DecidableEq, Repr

/-- SpeedBoostZone constructor: normal radius 100 / x1.5 / 10s, enhanced
radius 150 / x2.0 / 15s. -/
def SpeedBoostZone.new (c : Ctx) (position : Vec2) (isEnhanced : Bool) :
    SpeedBoostZone × Ctx :=
  let (i, c1) := c.freshHazardId
  ({ id := i
     position := position
     radius := if isEnhanced then 150 else 100
     lifetime := if isEnhanced then 15 * 60 else 10 * 60
     maxLifetime := if isEnhanced then 15 * 60 else 10 * 60
     active := true
     boostMultiplier := if isEnhanced then 2.0 else 1.5 }, c1)

/-- SpeedBoostZone.update. -/
def SpeedBoostZone.update (z : SpeedBoostZone) : SpeedBoostZone :=
  let lt := z.lifetime - 1
  { z with lifetime := lt, active := if lt ≤ 0 then false else z.active }

/-- SpeedBoostZone.contains. -/
def SpeedBoostZone.contains (z : SpeedBoostZone) (position : Vec2) : Bool :=
  z.active && distLe z.position position z.radius

/-- SpeedBoostZone.isExpired. -/
def SpeedBoostZone.isExpired (z : SpeedBoostZone) : Bool := decide (z.lifetime ≤ 0)

/-- Polymorphic hazard (the Hazard interface): tagged union of the four
concrete hazard classes. -/
inductive Hazard where
  | asteroid (a : Asteroid)
  | seeker (s : SeekerDrone)
  | mine (m : Mine)
  | nuke (n : Nuke)
deriving DecidableEq, Repr

/-- Hazard.type dispatcher. -/
def Hazard.type : Hazard → HazardType
  | .asteroid _ => .asteroid
  | .seeker _ => .seeker
  | .mine _ => .mine
  | .nuke _ => .nuke

/-- Hazard.position dispatcher. -/
def Hazard.position : Hazard → Vec2
  | .asteroid a => a.position
  | .seeker s => s.position
  | .mine m => m.position
  | .nuke n => n.position

/-- Hazard.active dispatcher. -/
def Hazard.active : Hazard → Bool
  | .asteroid a => a.active
  | .seeker s => s.active
  | .mine m => m.active
  | .nuke n => n.active

/-- Hazard.update dispatcher. -/
def Hazard.update (ops : RealOps) : Hazard → Hazard
  | .asteroid a => .asteroid a.update
  | .seeker s => .seeker (s.update ops)
  | .mine m => .mine m.update
  | .nuke n => .nuke n.update

/-- Hazard.collidesWith dispatcher. -/
def Hazard.collidesWith (h : Hazard) (shipPosition : Vec2) (shipRadius : ℚ) : Bool :=
  match h with
  | .asteroid a => a.collidesWith shipPosition shipRadius
  | .seeker s => s.collidesWith shipPosition shipRadius
  | .mine m => m.collidesWith shipPosition shipRadius
  | .nuke n => n.collidesWith shipPosition shipRadius

/-- Hazard.isExpired dispatcher. -/
def Hazard.isExpired : Hazard → Bool
  | .asteroid a => a.isExpired
  | .seeker s => s.isExpired
  | .mine m => m.isExpired
  | .nuke n => n.isExpired

-- Attack Translation Table (AttackTranslator.ts).

/-- Attack tier (enum AttackTier: 1, 1.5, 2, 3, 4-nuke). -/
inductive AttackTier where
  | tier1
  | tier1_5
  | tier2
  | tier3
  | tier4
deriving DecidableEq, Repr

/-- Numeric value of an attack tier (the enum value used in comparisons). -/
def AttackTier.val : AttackTier → ℚ
  | .tier1 => 1
  | .tier1_5 => 1.5
  | .tier2 => 2
  | .tier3 => 3
  | .tier4 => 4

/-- Attack result from banking. -/
structure AttackResult where
  hazards : List Hazard
  boostZones : List SpeedBoostZone
  tier : AttackTier
  description : String
deriving DecidableEq, Repr

/-- Thread the Ctx state through a list-indexed spawner (the for-loops that
push one hazard per iteration). -/
def mapCtx {α : Type} (f : Nat → Ctx → α × Ctx) : List Nat → Ctx → List α × Ctx
  | [], c => ([], c)
  | i :: rest, c =>
    let (a, c1) := f i c
    let (tail, c2) := mapCtx f rest c1
    (a :: tail, c2)

/-- getRandomEdgePosition: pick one of the 4 world edges at random, then a
random coordinate 30 units inside it.  When the drawn edge index falls outside
0..3 (impossible for a real Math.random), the switch assigns nothing and the
initial values x = 0, y = 0 remain. -/
def getRandomEdgePosition (ops : RealOps) (c : Ctx) (center : Vec2)
    (minDistance : ℚ) : Vec2 × Ctx :=
  let (r, c1) := c.draw ops
  let edge : ℤ := ⌊r * 4⌋
  if edge = 0 then
    let (rx, c2) := c1.draw ops
    (⟨rx * WORLD_WIDTH, 30⟩, c2)
  else if edge = 1 then
    let (ry, c2) := c1.draw ops
    (⟨WORLD_WIDTH - 30, ry * WORLD_HEIGHT⟩, c2)
  else if edge = 2 then
    let (rx, c2) := c1.draw ops
    (⟨rx * WORLD_WIDTH, WORLD_HEIGHT - 30⟩, c2)
  else if edge = 3 then
    let (ry, c2) := c1.draw ops
    (⟨30, ry * WORLD_HEIGHT⟩, c2)
  else (⟨0, 0⟩, c1)

/-- getRandomPosition: a random direction from the center at a random
distance in [minDistance, minDistance + 200). -/
def getRandomPosition (ops : RealOps) (c : Ctx) (center : Vec2)
    (minDistance : ℚ) : Vec2 × Ctx :=
  let (r1, c1) := c.draw ops
  let angle := r1 * ops.pi * 2
  let (r2, c2) := c1.draw ops
  let distance := minDistance + r2 * 200
  (⟨center.x + ops.cos angle * distance, center.y + ops.sin angle * distance⟩, c2)

/-- spawnAsteroid: random edge position, random direction, speed 1..3. -/
def spawnAsteroid (ops : RealOps) (c : Ctx) (wormholePosition : Vec2)
    (isLarge : Bool) : Asteroid × Ctx :=
  let (spawnPos, c1) := getRandomEdgePosition ops c wormholePosition 200
  let (r1, c2) := c1.draw ops
  let angle := r1 * ops.pi * 2
  let (r2, c3) := c2.draw ops
  let speed := 1 + r2 * 2
  let velocity := (Vec2.fromAngle ops angle).mul speed
  Asteroid.new ops c3 spawnPos velocity isLarge

/-- spawnAsteroidWall: pick one of 4 edges at random, lay out 8 asteroids in
a line (every third one large) sharing a velocity perpendicular to the edge.
An edge index outside 0..3 cannot arise from a real Math.random; that branch
keeps the initial startX = 0, startY = 0 and a zero velocity. -/
def spawnAsteroidWall (ops : RealOps) (c : Ctx) (wormholePosition : Vec2) :
    List Asteroid × Ctx :=
  let (r, c1) := c.draw ops
  let spawnEdge : ℤ := ⌊r * 4⌋
  let (startX, startY, velocity, c2) :=
    if spawnEdge = 0 then
      let (rv, cc) := c1.draw ops
      (WORLD_WIDTH / 2 - 200, (50 : ℚ), Vec2.mk 0 (2 + rv), cc)
    else if spawnEdge = 1 then
      let (rv, cc) := c1.draw ops
      (WORLD_WIDTH - 50, WORLD_HEIGHT / 2 - 200, Vec2.mk (-(2 + rv)) 0, cc)
    else if spawnEdge = 2 then
      let (rv, cc) := c1.draw ops
      (WORLD_WIDTH / 2 - 200, WORLD_HEIGHT - 50, Vec2.mk 0 (-(2 + rv)), cc)
    else if spawnEdge = 3 then
      let (rv, cc) := c1.draw ops
      ((50 : ℚ), WORLD_HEIGHT / 2 - 200, Vec2.mk (2 + rv) 0, cc)
    else ((0 : ℚ), (0 : ℚ), Vec2.zero, c1)
  let spacing : ℚ := 60
  mapCtx
    (fun i cc =>
      let x := if spawnEdge % 2 = 0 then startX + (i : ℚ) * spacing else startX
      let y := if spawnEdge % 2 = 1 then startY + (i : ℚ) * spacing else startY
      Asteroid.new ops cc ⟨x, y⟩ velocity.clone (decide (i % 3 = 0)))
    (List.range 8) c2

/-- spawnSeeker: random position near the hub, target pre-assigned to the
acting ship. -/
def spawnSeeker (ops : RealOps) (c : Ctx) (ship : Ship)
    (wormholePosition : Vec2) : SeekerDrone × Ctx :=
  let (spawnPos, c1) := getRandomPosition ops c wormholePosition 150
  let (seeker, c2) := SeekerDrone.new ops c1 spawnPos
  (seeker.setTarget ship.position, c2)

/-- spawnMine: random position at distance at least 250 from the hub. -/
def spawnMine (ops : RealOps) (c : Ctx) (wormholePosition : Vec2) : Mine × Ctx :=
  let (spawnPos, c1) := getRandomPosition ops c wormholePosition 250
  Mine.new c1 spawnPos

/-- spawnNuke: a Nuke exactly at the hub position. -/
def spawnNuke (c : Ctx) (wormholePosition : Vec2) : Nuke × Ctx :=
  Nuke.new c wormholePosition

/-- spawnTier1Attack (single orb): red 3 asteroids, blue 1 seeker, green one
normal speed-boost zone; the gold arm is the switch default (empty). -/
def spawnTier1Attack (ops : RealOps) (c : Ctx) (type : OrbType) (ship : Ship)
    (wormholePosition : Vec2) : AttackResult × Ctx :=
  match type with
  | .red =>
    let (asts, c1) := mapCtx (fun _ cc => spawnAsteroid ops cc wormholePosition false)
      (List.range 3) c
    ({ hazards := asts.map Hazard.asteroid
       boostZones := []
       tier := .tier1
       description := "3 Asteroids spawned!" }, c1)
  | .blue =>
    let (seeker, c1) := spawnSeeker ops c ship wormholePosition
    ({ hazards := [Hazard.seeker seeker]
       boostZones := []
       tier := .tier1
       description := "Seeker Drone launched!" }, c1)
  | .green =>
    let (zone, c1) := SpeedBoostZone.new c wormholePosition false
    ({ hazards := []
       boostZones := [zone]
       tier := .tier1
       description := "Speed Boost Zone created!" }, c1)
  | .gold =>
    ({ hazards := [], boostZones := [], tier := .tier1, description := "" }, c)

/-- spawnEnhancedAttack (2x same color, tier 1.5): red 3 small + 2 large
asteroids, blue 2 seekers, green one enhanced zone; gold is the default. -/
def spawnEnhancedAttack (ops : RealOps) (c : Ctx) (type : OrbType) (ship : Ship)
    (wormholePosition : Vec2) : AttackResult × Ctx :=
  match type with
  | .red =>
    let (small, c1) := mapCtx (fun _ cc => spawnAsteroid ops cc wormholePosition false)
      (List.range 3) c
    let (large, c2) := mapCtx (fun _ cc => spawnAsteroid ops cc wormholePosition true)
      (List.range 2) c1
    ({ hazards := (small ++ large).map Hazard.asteroid
       boostZones := []
       tier := .tier1_5
       description := "Enhanced Asteroid Swarm!" }, c2)
  | .blue =>
    let (seekers, c1) := mapCtx (fun _ cc => spawnSeeker ops cc ship wormholePosition)
      (List.range 2) c
    ({ hazards := seekers.map Hazard.seeker
       boostZones := []
       tier := .tier1_5
       description := "Twin Seekers launched!" }, c1)
  | .green =>
    let (zone, c1) := SpeedBoostZone.new c wormholePosition true
    ({ hazards := []
       boostZones := [zone]
       tier := .tier1_5
       description := "Enhanced Speed Zone!" }, c1)
  | .gold =>
    ({ hazards := [], boostZones := [], tier := .tier1_5, description := "" }, c)

/-- spawnTier2Attack (3x same color): red asteroid wall, blue 3 seekers,
green 8 mines; gold is the default. -/
def spawnTier2Attack (ops : RealOps) (c : Ctx) (type : OrbType) (ship : Ship)
    (wormholePosition : Vec2) : AttackResult × Ctx :=
  match type with
  | .red =>
    let (wall, c1) := spawnAsteroidWall ops c wormholePosition
    ({ hazards := wall.map Hazard.asteroid
       boostZones := []
       tier := .tier2
       description := "ASTEROID WALL!" }, c1)
  | .blue =>
    let (seekers, c1) := mapCtx (fun _ cc => spawnSeeker ops cc ship wormholePosition)
      (List.range 3) c
    ({ hazards := seekers.map Hazard.seeker
       boostZones := []
       tier := .tier2
       description := "Seeker Swarm!" }, c1)
  | .green =>
    let (mines, c1) := mapCtx (fun _ cc => spawnMine ops cc wormholePosition)
      (List.range 8) c
    ({ hazards := mines.map Hazard.mine
       boostZones := []
       tier := .tier2
       description := "MINE FIELD deployed!" }, c1)
  | .gold =>
    ({ hazards := [], boostZones := [], tier := .tier2, description := "" }, c)

/-- spawnChaosStorm (1R + 1B + 1G): mixed bundle of 2 asteroids (one small,
one large), 1 seeker and 2 mines, tier 2. -/
def spawnChaosStorm (ops : RealOps) (c : Ctx) (ship : Ship)
    (wormholePosition : Vec2) : AttackResult × Ctx :=
  let (a1, c1) := spawnAsteroid ops c wormholePosition false
  let (a2, c2) := spawnAsteroid ops c1 wormholePosition true
  let (sk, c3) := spawnSeeker ops c2 ship wormholePosition
  let (m1, c4) := spawnMine ops c3 wormholePosition
  let (m2, c5) := spawnMine ops c4 wormholePosition
  ({ hazards := [Hazard.asteroid a1, Hazard.asteroid a2, Hazard.seeker sk,
                 Hazard.mine m1, Hazard.mine m2]
     boostZones := []
     tier := .tier2
     description := "CHAOS STORM!" }, c5)

/-- spawnMegaAttack (4x same color, tier 3): red 8 small + 4 large asteroids,
blue 5 seekers, green 12 mines plus an enhanced zone; gold is the default. -/
def spawnMegaAttack (ops : RealOps) (c : Ctx) (type : OrbType) (ship : Ship)
    (wormholePosition : Vec2) : AttackResult × Ctx :=
  match type with
  | .red =>
    let (small, c1) := mapCtx (fun _ cc => spawnAsteroid ops cc wormholePosition false)
      (List.range 8) c
    let (large, c2) := mapCtx (fun _ cc => spawnAsteroid ops cc wormholePosition true)
      (List.range 4) c1
    ({ hazards := (small ++ large).map Hazard.asteroid
       boostZones := []
       tier := .tier3
       description := "MEGA ASTEROID BARRAGE!" }, c2)
  | .blue =>
    let (seekers, c1) := mapCtx (fun _ cc => spawnSeeker ops cc ship wormholePosition)
      (List.range 5) c
    ({ hazards := seekers.map Hazard.seeker
       boostZones := []
       tier := .tier3
       description := "MEGA SEEKER SWARM!" }, c1)
  | .green =>
    let (mines, c1) := mapCtx (fun _ cc => spawnMine ops cc wormholePosition)
      (List.range 12) c
    let (zone, c2) := SpeedBoostZone.new c1 wormholePosition true
    ({ hazards := mines.map Hazard.mine
       boostZones := [zone]
       tier := .tier3
       description := "MEGA DEFENSE GRID!" }, c2)
  | .gold =>
    ({ hazards := [], boostZones := [], tier := .tier3, description := "" }, c)

/-- translateCargoToAttack: the deterministic priority ladder.  Orbs are
counted per type; the checks run in source order: nuke (8 gold), mega
(4x, colors red, blue, green in order), chaos storm (1R + 1B + 1G), tier 2
(3x), enhanced (2x), single-orb tier 1 (red, blue, green priority), then the
empty fallback. -/
def translateCargoToAttack (ops : RealOps) (c : Ctx) (cargo : List OrbType)
    (ship : Ship) (wormholePosition : Vec2) : AttackResult × Ctx :=
  let countRed := cargo.count OrbType.red
  let countBlue := cargo.count OrbType.blue
  let countGreen := cargo.count OrbType.green
  let countGold := cargo.count OrbType.gold
  if 8 ≤ countGold then
    let (nk, c1) := spawnNuke c wormholePosition
    ({ hazards := [Hazard.nuke nk]
       boostZones := []
       tier := .tier4
       description := "NUKE DETONATED!" }, c1)
  else if 4 ≤ countRed then spawnMegaAttack ops c .red ship wormholePosition
  else if 4 ≤ countBlue then spawnMegaAttack ops c .blue ship wormholePosition
  else if 4 ≤ countGreen then spawnMegaAttack ops c .green ship wormholePosition
  else if 1 ≤ countRed ∧ 1 ≤ countBlue ∧ 1 ≤ countGreen then
    spawnChaosStorm ops c ship wormholePosition
  else if 3 ≤ countRed then spawnTier2Attack ops c .red ship wormholePosition
  else if 3 ≤ countBlue then spawnTier2Attack ops c .blue ship wormholePosition
  else if 3 ≤ countGreen then spawnTier2Attack ops c .green ship wormholePosition
  else if 2 ≤ countRed then spawnEnhancedAttack ops c .red ship wormholePosition
  else if 2 ≤ countBlue then spawnEnhancedAttack ops c .blue ship wormholePosition
  else if 2 ≤ countGreen then spawnEnhancedAttack ops c .green ship wormholePosition
  else if 1 ≤ countRed then spawnTier1Attack ops c .red ship wormholePosition
  else if 1 ≤ countBlue then spawnTier1Attack ops c .blue ship wormholePosition
  else if 1 ≤ countGreen then spawnTier1Attack ops c .green ship wormholePosition
  else
    ({ hazards := [], boostZones := [], tier := .tier1,
       description := "Nothing happened..." }, c)

-- Grid simulation (GridState.ts).

/-- Grid owner identity (type GridOwner). -/
inductive GridOwner where
  | player
  | bot1
  | bot2
  | bot3
deriving DecidableEq, Repr

/-- GridState readonly field MAX_ORBS. -/
def MAX_ORBS : Nat := 12

/-- GridState readonly field MIN_SPAWN_DISTANCE. -/
def MIN_SPAWN_DISTANCE : ℚ := 150

/-- GridState readonly field MIN_EDGE_DISTANCE. -/
def MIN_EDGE_DISTANCE : ℚ := 50

/-- GridState readonly field SPAWN_INTERVAL_MIN. -/
def SPAWN_INTERVAL_MIN : ℚ := 2000

/-- GridState readonly field SPAWN_INTERVAL_MAX. -/
def SPAWN_INTERVAL_MAX : ℚ := 4000

/-- GridState readonly field ATTACK_MESSAGE_DURATION. -/
def ATTACK_MESSAGE_DURATION : ℤ := 3 * 60

/-- GridState readonly field SCREEN_SHAKE_DECAY. -/
def SCREEN_SHAKE_DECAY : ℚ := 0.9

/-- One competitor's complete simulation state.  The keyed orb Map is
modelled as a list in insertion order; the cosmetic ParticleSystem is
modelled as a counter of emitted particle bursts (its visual state plays no
role in any claim); the onBankOrbs / onShipDestroyed / onKillFeed callbacks
are modelled as explicit return values where a claim needs them. -/
structure GridState where
  owner : GridOwner
  isPlayer : Bool
  ship : Ship
  wormhole : Wormhole
  orbs : List Orb
  hazards : List Hazard
  boostZones : List SpeedBoostZone
  particles : Nat
  orbSpawnTimer : ℚ
  nextOrbSpawnTime : ℚ
  bankingPulse : ℚ
  lastAttackResult : Option AttackResult
  attackMessageTimer : ℤ
  screenShake : ℚ
  gameOver : Bool
  gameOverTimer : ℤ
  winner : Option GridOwner
deriving DecidableEq, Repr

/-- GridState constructor: fresh ship, the shared wormhole when one is
passed (else a new one), empty collections, initial timers. -/
def GridState.new (ops : RealOps) (owner : GridOwner) (isPlayer : Bool)
    (shipColor : String) (shipStartX shipStartY : ℚ)
    (sharedWormhole : Option Wormhole) : GridState :=
  { owner := owner
    isPlayer := isPlayer
    ship := Ship.new ops shipStartX shipStartY shipColor
    wormhole := sharedWormhole.getD Wormhole.new
    orbs := []
    hazards := []
    boostZones := []
    particles := 0
    orbSpawnTimer := 0
    nextOrbSpawnTime := 3000
    bankingPulse := 0
    lastAttackResult := none
    attackMessageTimer := 0
    screenShake := 0
    gameOver := false
    gameOverTimer := 0
    winner := none }

/-- GridState.spawnOrb attempt loop: up to 50 random placements respecting
the hub distance, the edge margin and the separation from existing orbs;
the first valid placement wins, otherwise no orb spawns. -/
def spawnOrbLoop (ops : RealOps) (orbs : List Orb) :
    Nat → Ctx → Option Orb × Ctx
  | 0, c => (none, c)
  | n + 1, c =>
    let (rx, c1) := c.draw ops
    let x := MIN_EDGE_DISTANCE + rx * (WORLD_WIDTH - MIN_EDGE_DISTANCE * 2)
    let (ry, c2) := c1.draw ops
    let y := MIN_EDGE_DISTANCE + ry * (WORLD_HEIGHT - MIN_EDGE_DISTANCE * 2)
    let position := Vec2.mk x y
    let center := Vec2.mk (WORLD_WIDTH / 2) (WORLD_HEIGHT / 2)
    if distGe position center MIN_SPAWN_DISTANCE then
      if orbs.any fun o => distLt position o.position (ORB_RADIUS * 3) then
        spawnOrbLoop ops orbs n c2
      else
        let (rt, c3) := c2.draw ops
        let (o, c4) := Orb.new ops c3 position (Orb.getRandomType rt)
        (some o, c4)
    else spawnOrbLoop ops orbs n c2

/-- GridState.updateOrbSpawning: respect the population cap, accumulate the
physics timestep, and spawn (re-rolling the next interval) when due. -/
def updateOrbSpawning (ops : RealOps) (c : Ctx) (g : GridState) :
    GridState × Ctx :=
  if MAX_ORBS ≤ g.orbs.length then (g, c)
  else
    let timer := g.orbSpawnTimer + PHYSICS_DT
    if g.nextOrbSpawnTime ≤ timer then
      let (newOrb, c1) := spawnOrbLoop ops g.orbs 50 c
      let orbs1 := match newOrb with
        | some o => g.orbs ++ [o]
        | none => g.orbs
      let (r, c2) := c1.draw ops
      ({ g with
         orbs := orbs1
         orbSpawnTimer := 0
         nextOrbSpawnTime :=
           SPAWN_INTERVAL_MIN + r * (SPAWN_INTERVAL_MAX - SPAWN_INTERVAL_MIN) }, c2)
    else ({ g with orbSpawnTimer := timer }, c)

/-- Ship-orb collision resolution: each colliding orb is collected when
`addCargo` succeeds (one particle burst, orb removed); a full cargo leaves
the orb in the world. -/
def collectOrbs : List Orb → Ship → Nat → List Orb × Ship × Nat
  | [], ship, bursts => ([], ship, bursts)
  | o :: rest, ship, bursts =>
    if o.collidesWith ship.position SHIP_COLLISION_RADIUS then
      let r := ship.addCargo o.type
      if r.2 then collectOrbs rest r.1 (bursts + 1)
      else
        let t := collectOrbs rest r.1 bursts
        (o :: t.1, t.2.1, t.2.2)
    else
      let t := collectOrbs rest ship bursts
      (o :: t.1, t.2.1, t.2.2)

/-- GridState.update: the per-tick sequence of GridState.ts (early return
when game over; ship, wormhole, orb, hazard and zone updates; orb spawning;
collision resolution; boost zones; timers; banking pulse; shake decay;
expired-entity sweep; death check).  Note the source guard before the
wormhole update is `if (this.wormhole)`, which is always true, so the
(possibly shared) wormhole is updated by every grid. -/
def GridState.update (ops : RealOps) (c : Ctx) (g : GridState) :
    GridState × Ctx :=
  if g.gameOver then
    ({ g with gameOverTimer := g.gameOverTimer + 1 }, c)
  else
    let ship1 := (g.ship.savePreviousState).update ops
    let wormhole1 := g.wormhole.update
    let orbs1 := g.orbs.map Orb.update
    let hazards1 := g.hazards.map (Hazard.update ops)
    let zones1 := g.boostZones.map SpeedBoostZone.update
    let g1 := { g with
      ship := ship1, wormhole := wormhole1, orbs := orbs1
      hazards := hazards1, boostZones := zones1 }
    let (g2, c1) := updateOrbSpawning ops c g1
    let col := collectOrbs g2.orbs g2.ship g2.particles
    let g3 := { g2 with orbs := col.1, ship := col.2.1, particles := col.2.2 }
    let g4 : GridState :=
      if !g3.ship.isInvulnerable then
        match g3.hazards.find? fun h =>
            h.collidesWith g3.ship.position SHIP_COLLISION_RADIUS with
        | some _ =>
          let dmg := g3.ship.takeDamage
          { g3 with
            particles := g3.particles + 1 + (if dmg.2 then 1 else 0)
            screenShake := 15
            ship := dmg.1 }
        | none => g3
      else g3
    let ship5 := g4.boostZones.foldl
      (fun sh z => if z.contains sh.position then sh.applySpeedBoost z.boostMultiplier else sh)
      g4.ship
    let timer1 : ℤ :=
      if 0 < g4.attackMessageTimer then g4.attackMessageTimer - 1
      else g4.attackMessageTimer
    let pulse : ℚ :=
      if !ship5.isDead && wormhole1.isInBankingZone ship5.position then
        min (g4.bankingPulse + 0.05) 1
      else max (g4.bankingPulse - 0.05) 0
    let shake1 : ℚ := g4.screenShake * SCREEN_SHAKE_DECAY
    let shake2 : ℚ := if shake1 < 0.5 then 0 else shake1
    let hazards2 := g4.hazards.filter fun h => !h.isExpired && h.active
    let zones2 := g4.boostZones.filter fun z => !z.isExpired && z.active
    let g5 := { g4 with
      ship := ship5, attackMessageTimer := timer1, bankingPulse := pulse
      screenShake := shake2, hazards := hazards2, boostZones := zones2 }
    let g6 := if g5.ship.isDead && !g5.gameOver then { g5 with gameOver := true } else g5
    (g6, c1)

/-- GridState.bankOrbs: guarded by being inside the banking zone with
non-empty cargo; on success clears the cargo, emits particle bursts, fires
the onBankOrbs event (returned here as the third component), translates the
banked cargo into an attack for local display, and applies the tiered screen
shake.  Otherwise nothing changes and no event fires. -/
def GridState.bankOrbs (ops : RealOps) (c : Ctx) (g : GridState) :
    GridState × Ctx × Option (GridOwner × List OrbType) :=
  let inZone := g.wormhole.isInBankingZone g.ship.position
  let isEmpty := g.ship.isCargoEmpty
  if inZone && !isEmpty then
    let cleared := g.ship.clearCargo
    let bankedOrbs := cleared.1
    let ship1 := cleared.2
    let particles1 := g.particles + 1 + bankedOrbs.length
    let tr := translateCargoToAttack ops c bankedOrbs ship1 g.wormhole.position
    let attackResult := tr.1
    let shake : ℚ :=
      if 3 ≤ attackResult.tier.val then 20
      else if 2 ≤ attackResult.tier.val then 10
      else 5
    ({ g with
       ship := ship1
       particles := particles1
       lastAttackResult := some attackResult
       attackMessageTimer := ATTACK_MESSAGE_DURATION
       screenShake := shake }, tr.2, some (g.owner, bankedOrbs))
  else (g, c, none)

-- Concrete test fixtures used by witnesses and counterexamples.

/-- A concrete, computable oracle: a constant random stream, trivial trig,
and an over-approximating square root (`max 1 q`, which satisfies
`0 <= sqrt q` and `q <= (sqrt q) ^ 2`). -/
def testOps : RealOps :=
  { rand := fun _ => 0
    cos := fun _ => 1
    sin := fun _ => 0
    sqrt := fun q => max 1 q
    pi := 3 }

/-- Initial threaded state. -/
def ctx0 : Ctx := { k := 0, nextHazardId := 0, nextOrbId := 0 }

/-- The hub position (WORLD_WIDTH / 2, WORLD_HEIGHT / 2). -/
def wp0 : Vec2 := ⟨600, 400⟩

/-- A freshly constructed player ship at the player spawn point. -/
def ship0 : Ship := Ship.new testOps 600 600 "#33ff33"

/-- A player grid sharing the orchestrator's wormhole, as Game.setupGrids
constructs it. -/
def grid0 : GridState :=
  GridState.new testOps GridOwner.player true "#33ff33" 600 600 (some Wormhole.new)

/-- The test oracle's sqrt is nonnegative. -/
theorem testOps_sqrt_nonneg : ∀ q : ℚ, 0 ≤ testOps.sqrt q := by
  intro q
  simp only [testOps]
  exact le_trans zero_le_one (le_max_left 1 q)

/-- The test oracle's sqrt over-approximates: `q <= (sqrt q) ^ 2`. -/
theorem testOps_sqrt_sq : ∀ q : ℚ, 0 ≤ q → q ≤ testOps.sqrt q ^ 2 := by
  intro q _
  simp only [testOps]
  rcases le_total q 1 with h | h
  · calc q ≤ 1 := h
      _ = 1 ^ 2 := by norm_num
      _ ≤ max 1 q ^ 2 := by
        have h1 : (1 : ℚ) ≤ max 1 q := le_max_left 1 q
        nlinarith
  · calc q ≤ max 1 q := le_max_right 1 q
      _ ≤ max 1 q ^ 2 := by
        have h1 : (1 : ℚ) ≤ max 1 q := le_max_left 1 q
        nlinarith

/-- C1: For every input cargo sequence, `translateCargoToAttack` is
deterministic on the listed hands, for every oracle, threaded state, acting
ship and hub position: a cargo with at least 8 GOLD returns tier 4 with
exactly one hazard, a Nuke at the hub position; `[RED, BLUE, GREEN]` returns
tier 2 with exactly 5 hazards (2 asteroids, 1 seeker, 2 mines) and no boost
zones; `[BLUE]` returns tier 1 with exactly one SeekerDrone; the empty cargo
returns tier 1 with zero hazards and zero boost zones. -/
theorem translateCargoToAttack_ladder_cases (ops : RealOps) (c : Ctx)
    (ship : Ship) (wp : Vec2) :
    (∀ cargo : List OrbType, 8 ≤ cargo.count OrbType.gold →
      (translateCargoToAttack ops c cargo ship wp).1.tier = AttackTier.tier4 ∧
      (translateCargoToAttack ops c cargo ship wp).1.hazards.map Hazard.type =
        [HazardType.nuke] ∧
      (translateCargoToAttack ops c cargo ship wp).1.hazards.map Hazard.position = [wp] ∧
      (translateCargoToAttack ops c cargo ship wp).1.boostZones = []) ∧
    ((translateCargoToAttack ops c [OrbType.red, OrbType.blue, OrbType.green]
        ship wp).1.tier = AttackTier.tier2 ∧
      (translateCargoToAttack ops c [OrbType.red, OrbType.blue, OrbType.green]
        ship wp).1.hazards.map Hazard.type =
        [HazardType.asteroid, HazardType.asteroid, HazardType.seeker,
         HazardType.mine, HazardType.mine] ∧
      (translateCargoToAttack ops c [OrbType.red, OrbType.blue, OrbType.green]
        ship wp).1.boostZones = []) ∧
    ((translateCargoToAttack ops c [OrbType.blue] ship wp).1.tier = AttackTier.tier1 ∧
      (translateCargoToAttack ops c [OrbType.blue] ship wp).1.hazards.map Hazard.type =
        [HazardType.seeker]) ∧
    ((translateCargoToAttack ops c [] ship wp).1.tier = AttackTier.tier1 ∧
      (translateCargoToAttack ops c [] ship wp).1.hazards = [] ∧
      (translateCargoToAttack ops c [] ship wp).1.boostZones = []) := by
  refine ⟨?_, ?_, ?_, ?_⟩
  · intro cargo h
    simp [translateCargoToAttack, h, spawnNuke, Nuke.new, Ctx.freshHazardId,
      Hazard.type, Hazard.position]
  · exact ⟨rfl, rfl, rfl⟩
  · exact ⟨rfl, rfl⟩
  · exact ⟨rfl, rfl, rfl⟩

/-- C1 witness: the gold branch evaluated at a concrete 8-gold cargo with
the concrete oracle, ship and hub. -/
theorem translateCargoToAttack_ladder_cases_witness :
    8 ≤ (List.replicate 8 OrbType.gold).count OrbType.gold ∧
    (translateCargoToAttack testOps ctx0 (List.replicate 8 OrbType.gold)
      ship0 wp0).1.tier = AttackTier.tier4 ∧
    (translateCargoToAttack testOps ctx0 (List.replicate 8 OrbType.gold)
      ship0 wp0).1.hazards.map Hazard.position = [wp0] :=
  ⟨by decide,
   ((translateCargoToAttack_ladder_cases testOps ctx0 ship0 wp0).1
     (List.replicate 8 OrbType.gold) (by decide)).1,
   ((translateCargoToAttack_ladder_cases testOps ctx0 ship0 wp0).1
     (List.replicate 8 OrbType.gold) (by decide)).2.2.1⟩

/-- C2: the chaos-storm trigger is checked before the three-same-color and
two-same-color triggers: the cargo `[RED, RED, RED, BLUE, GREEN]` resolves
to the tier-2 chaos storm bundle (2 asteroids, 1 seeker, 2 mines,
description "CHAOS STORM!"), identical to `spawnChaosStorm`, and not to the
tier-2 red asteroid-wall attack. -/
theorem translateCargoToAttack_chaos_priority (ops : RealOps) (c : Ctx)
    (ship : Ship) (wp : Vec2) :
    translateCargoToAttack ops c
        [OrbType.red, OrbType.red, OrbType.red, OrbType.blue, OrbType.green] ship wp =
      spawnChaosStorm ops c ship wp ∧
    (translateCargoToAttack ops c
        [OrbType.red, OrbType.red, OrbType.red, OrbType.blue, OrbType.green]
        ship wp).1.tier = AttackTier.tier2 ∧
    (translateCargoToAttack ops c
        [OrbType.red, OrbType.red, OrbType.red, OrbType.blue, OrbType.green]
        ship wp).1.hazards.map Hazard.type =
      [HazardType.asteroid, HazardType.asteroid, HazardType.seeker,
       HazardType.mine, HazardType.mine] ∧
    (translateCargoToAttack ops c
        [OrbType.red, OrbType.red, OrbType.red, OrbType.blue, OrbType.green]
        ship wp).1.description = "CHAOS STORM!" ∧
    (translateCargoToAttack ops c
        [OrbType.red, OrbType.red, OrbType.red, OrbType.blue, OrbType.green]
        ship wp).1.description ≠ "ASTEROID WALL!" := by
  refine ⟨rfl, rfl, rfl, rfl, ?_⟩
  show ("CHAOS STORM!" : String) ≠ "ASTEROID WALL!"
  decide

set_option maxRecDepth 8000 in
/-- C3: contrary to the read-only shared-hub policy, `GridState.update`
executes `this.wormhole.update()` even for a grid constructed with a shared
wormhole (the guard `if (this.wormhole)` is always true), so one grid update
advances the shared hub's rotation by WORMHOLE_ROTATION_SPEED and its pulse
phase by pulseSpeed on top of the orchestrator's own update. -/
theorem gridState_update_mutates_shared_wormhole :
    grid0.wormhole.rotation = 0 ∧
    ((GridState.update testOps ctx0 grid0).1).wormhole.rotation =
      WORMHOLE_ROTATION_SPEED ∧
    ((GridState.update testOps ctx0 grid0).1).wormhole.pulsePhase =
      grid0.wormhole.pulsePhase + grid0.wormhole.pulseSpeed := by
  with_unfolding_all decide

/-- A concrete detonated, active nuke at the hub with a fully expanded
blast radius. -/
def nuke1 : Nuke :=
  { id := 0
    position := wp0
    radius := 375
    maxRadius := 375
    lifetime := 120
    maxLifetime := 420
    countdownTime := 0
    detonated := true
    explosionTime := 60
    maxExplosionTime := 120
    active := true
    safeZoneRadius := 50 }

/-- C4 counterexample: a ship 60 units from the hub is within the hub core
radius (WORMHOLE_RADIUS = 80), where the claim requires `collidesWith` to
return false, yet the detonated nuke's `collidesWith` returns true, because
the code's central safe zone uses `safeZoneRadius = 50`, not the hub core
radius. -/
theorem nuke_collidesWith_hub_core_counterexample :
    nuke1.active = true ∧ nuke1.detonated = true ∧
    Wormhole.new.isInWormhole (⟨660, 400⟩ : Vec2) = true ∧
    distLe (⟨660, 400⟩ : Vec2) nuke1.position WORMHOLE_RADIUS = true ∧
    nuke1.collidesWith ⟨660, 400⟩ SHIP_COLLISION_RADIUS = true := by
  with_unfolding_all decide

/-- C4 amended: for every detonated, active nuke and every ship position,
`collidesWith` returns false whenever the ship is within the nuke's own
safe-zone radius (50 units) of the nuke's position or within 80 units of any
of the 4 world corners, and otherwise returns exactly the blast-radius test
(distance at most current radius + ship radius). -/
theorem nuke_collidesWith_safe_zones (n : Nuke) (p : Vec2) (r : ℚ)
    (ha : n.active = true) (hd : n.detonated = true) :
    (distLe p n.position n.safeZoneRadius = true → n.collidesWith p r = false) ∧
    ((worldCorners.any fun corner => distLt p corner 80) = true →
      n.collidesWith p r = false) ∧
    (distLe p n.position n.safeZoneRadius = false →
      (worldCorners.any fun corner => distLt p corner 80) = false →
      n.collidesWith p r = distLe n.position p (n.radius + r)) := by
  unfold Nuke.collidesWith
  rw [ha, hd]
  refine ⟨fun h => by simp [h], fun h => ?_, fun h1 h2 => by simp [h1, h2]⟩
  by_cases hs : distLe p n.position n.safeZoneRadius <;> simp [hs, h]

/-- C4 witness: the amended theorem applied to the concrete nuke and a ship
10 units from the nuke's position (inside the 50-unit safe zone), where
`collidesWith` returns false. -/
theorem nuke_collidesWith_safe_zones_witness :
    nuke1.active = true ∧ nuke1.detonated = true ∧
    distLe (⟨610, 400⟩ : Vec2) nuke1.position nuke1.safeZoneRadius = true ∧
    nuke1.collidesWith ⟨610, 400⟩ SHIP_COLLISION_RADIUS = false :=
  ⟨rfl, rfl, by with_unfolding_all decide,
   (nuke_collidesWith_safe_zones nuke1 ⟨610, 400⟩ SHIP_COLLISION_RADIUS rfl rfl).1
     (by with_unfolding_all decide)⟩

-- Helper lemmas for the toroidal wrap invariant.

/-- The squared length is nonnegative. -/
theorem Vec2.lengthSq_nonneg (v : Vec2) : 0 ≤ v.lengthSq := by
  unfold Vec2.lengthSq
  nlinarith [mul_self_nonneg v.x, mul_self_nonneg v.y]

/-- Componentwise bound for `Vec2.clamp`: for any oracle whose sqrt is
nonnegative and satisfies `q <= (sqrt q) ^ 2`, both components of the
clamped vector are bounded by the clamp limit. -/
theorem clamp_comp_bound (ops : RealOps)
    (hs1 : ∀ q, 0 ≤ ops.sqrt q) (hs2 : ∀ q, 0 ≤ q → q ≤ ops.sqrt q ^ 2)
    (v : Vec2) (m : ℚ) (hm : 0 ≤ m) :
    |(Vec2.clamp ops v m).x| ≤ m ∧ |(Vec2.clamp ops v m).y| ≤ m := by
  have hl0 : 0 ≤ ops.sqrt v.lengthSq := hs1 _
  have hl2 : v.lengthSq ≤ ops.sqrt v.lengthSq ^ 2 := hs2 _ v.lengthSq_nonneg
  have hsum : v.lengthSq = v.x * v.x + v.y * v.y := rfl
  have hx2 : v.x * v.x ≤ ops.sqrt v.lengthSq ^ 2 := by
    nlinarith [mul_self_nonneg v.y, hsum]
  have hy2 : v.y * v.y ≤ ops.sqrt v.lengthSq ^ 2 := by
    nlinarith [mul_self_nonneg v.x, hsum]
  have hx : |v.x| ≤ ops.sqrt v.lengthSq := by
    nlinarith [abs_nonneg v.x, abs_mul_abs_self v.x]
  have hy : |v.y| ≤ ops.sqrt v.lengthSq := by
    nlinarith [abs_nonneg v.y, abs_mul_abs_self v.y]
  unfold Vec2.clamp Vec2.normalize Vec2.length
  dsimp only
  split_ifs with hc hz
  · exact ⟨by simpa [Vec2.mul] using hm, by simpa [Vec2.mul] using hm⟩
  · have hlpos : 0 < ops.sqrt v.lengthSq := lt_of_le_of_lt hm hc
    unfold Vec2.div Vec2.mul
    dsimp only
    constructor
    · rw [abs_mul, abs_div, abs_of_pos hlpos, abs_of_nonneg hm]
      calc |v.x| / ops.sqrt v.lengthSq * m ≤ 1 * m := by
            apply mul_le_mul_of_nonneg_right _ hm
            exact (div_le_one hlpos).mpr hx
        _ = m := one_mul m
    · rw [abs_mul, abs_div, abs_of_pos hlpos, abs_of_nonneg hm]
      calc |v.y| / ops.sqrt v.lengthSq * m ≤ 1 * m := by
            apply mul_le_mul_of_nonneg_right _ hm
            exact (div_le_one hlpos).mpr hy
        _ = m := one_mul m
  · have hlm : ops.sqrt v.lengthSq ≤ m := le_of_not_lt hc
    exact ⟨le_trans hx hlm, le_trans hy hlm⟩

/-- Wrapping keeps a position inside the closed world box whenever the
pre-wrap position is within one world size of it. -/
theorem wrapPosition_bounds (pos prev : Vec2)
    (hx1 : -WORLD_WIDTH ≤ pos.x) (hx2 : pos.x ≤ 2 * WORLD_WIDTH)
    (hy1 : -WORLD_HEIGHT ≤ pos.y) (hy2 : pos.y ≤ 2 * WORLD_HEIGHT) :
    0 ≤ (wrapPosition pos prev).1.x ∧ (wrapPosition pos prev).1.x ≤ WORLD_WIDTH ∧
    0 ≤ (wrapPosition pos prev).1.y ∧ (wrapPosition pos prev).1.y ≤ WORLD_HEIGHT := by
  unfold wrapPosition
  dsimp only
  unfold WORLD_WIDTH WORLD_HEIGHT at *
  split_ifs <;> refine ⟨?_, ?_, ?_, ?_⟩ <;> dsimp only <;> linarith

/-- C5 amended: for every alive ship whose position lies in the closed world
box and whose speed-boost multiplier keeps the clamped speed within the
world size, the position after `Ship.update` stays within the CLOSED box
0 <= x <= WORLD_WIDTH, 0 <= y <= WORLD_HEIGHT (wrapping, never clamping);
the bound is not strict, as a coordinate exactly equal to the world size is
left in place. -/
theorem ship_update_wrap_invariant (ops : RealOps) (s : Ship)
    (hs1 : ∀ q, 0 ≤ ops.sqrt q) (hs2 : ∀ q, 0 ≤ q → q ≤ ops.sqrt q ^ 2)
    (hdead : s.isDead = false)
    (hx1 : 0 ≤ s.position.x) (hx2 : s.position.x ≤ WORLD_WIDTH)
    (hy1 : 0 ≤ s.position.y) (hy2 : s.position.y ≤ WORLD_HEIGHT)
    (hb0 : 0 ≤ s.speedBoost)
    (hb1 : SHIP_MAX_SPEED * s.speedBoost ≤ WORLD_HEIGHT) :
    0 ≤ (s.update ops).position.x ∧ (s.update ops).position.x ≤ WORLD_WIDTH ∧
    0 ≤ (s.update ops).position.y ∧ (s.update ops).position.y ≤ WORLD_HEIGHT := by
  have hm0 : 0 ≤ SHIP_MAX_SPEED * s.speedBoost := by
    unfold SHIP_MAX_SPEED
    positivity
  have key : ∀ v1 : Vec2,
      0 ≤ (wrapPosition (s.position.add ((v1.clamp ops
              (SHIP_MAX_SPEED * s.speedBoost)).mul SHIP_DRAG))
            s.previousPosition).1.x ∧
      (wrapPosition (s.position.add ((v1.clamp ops
              (SHIP_MAX_SPEED * s.speedBoost)).mul SHIP_DRAG))
            s.previousPosition).1.x ≤ WORLD_WIDTH ∧
      0 ≤ (wrapPosition (s.position.add ((v1.clamp ops
              (SHIP_MAX_SPEED * s.speedBoost)).mul SHIP_DRAG))
            s.previousPosition).1.y ∧
      (wrapPosition (s.position.add ((v1.clamp ops
              (SHIP_MAX_SPEED * s.speedBoost)).mul SHIP_DRAG))
            s.previousPosition).1.y ≤ WORLD_HEIGHT := by
    intro v1
    obtain ⟨hcx, hcy⟩ := clamp_comp_bound ops hs1 hs2 v1
      (SHIP_MAX_SPEED * s.speedBoost) hm0
    have hdx : |((v1.clamp ops (SHIP_MAX_SPEED * s.speedBoost)).mul SHIP_DRAG).x| ≤
        SHIP_MAX_SPEED * s.speedBoost := by
      unfold Vec2.mul
      dsimp only
      rw [abs_mul]
      calc |(v1.clamp ops (SHIP_MAX_SPEED * s.speedBoost)).x| * |SHIP_DRAG|
          ≤ (SHIP_MAX_SPEED * s.speedBoost) * 1 := by
            apply mul_le_mul hcx _ (abs_nonneg _) hm0
            rw [abs_of_nonneg (by norm_num [SHIP_DRAG])]
            norm_num [SHIP_DRAG]
        _ = SHIP_MAX_SPEED * s.speedBoost := mul_one _
    have hdy : |((v1.clamp ops (SHIP_MAX_SPEED * s.speedBoost)).mul SHIP_DRAG).y| ≤
        SHIP_MAX_SPEED * s.speedBoost := by
      unfold Vec2.mul
      dsimp only
      rw [abs_mul]
      calc |(v1.clamp ops (SHIP_MAX_SPEED * s.speedBoost)).y| * |SHIP_DRAG|
          ≤ (SHIP_MAX_SPEED * s.speedBoost) * 1 := by
            apply mul_le_mul hcy _ (abs_nonneg _) hm0
            rw [abs_of_nonneg (by norm_num [SHIP_DRAG])]
            norm_num [SHIP_DRAG]
        _ = SHIP_MAX_SPEED * s.speedBoost := mul_one _
    obtain ⟨hdx1, hdx2⟩ := abs_le.mp hdx
    obtain ⟨hdy1, hdy2⟩ := abs_le.mp hdy
    have hWH : WORLD_HEIGHT ≤ WORLD_WIDTH := by norm_num [WORLD_WIDTH, WORLD_HEIGHT]
    apply wrapPosition_bounds <;> unfold Vec2.add <;> dsimp only <;>
      unfold WORLD_WIDTH WORLD_HEIGHT at * <;> linarith
  unfold Ship.update
  simp only [hdead, Bool.false_eq_true, if_false]
  exact key _

/-- C5 counterexample ship: alive, at rest exactly on the world's right
edge x = WORLD_WIDTH. -/
def shipEdge : Ship :=
  { ship0 with position := ⟨WORLD_WIDTH, 400⟩, previousPosition := ⟨WORLD_WIDTH, 400⟩ }

set_option maxRecDepth 8000 in
/-- C5 counterexample: the claim's strict bound fails: an alive ship at
x = WORLD_WIDTH with zero velocity still has x = WORLD_WIDTH after
`Ship.update` (the wrap condition is `x > WORLD_WIDTH`, so the edge value is
left in place), contradicting `x < WORLD_WIDTH`. -/
theorem ship_update_wrap_strict_counterexample :
    shipEdge.isDead = false ∧
    (Ship.update testOps shipEdge).position.x = WORLD_WIDTH ∧
    ¬((Ship.update testOps shipEdge).position.x < WORLD_WIDTH) := by
  with_unfolding_all decide

/-- A concrete moving ship used to instantiate the wrap invariant. -/
def shipMoving : Ship := { ship0 with velocity := ⟨3, 4⟩, thrusting := true }

set_option maxRecDepth 8000 in
/-- C5 witness: the amended invariant applied to a concrete moving ship
under the concrete oracle. -/
theorem ship_update_wrap_invariant_witness :
    shipMoving.isDead = false ∧
    0 ≤ shipMoving.position.x ∧ shipMoving.position.x ≤ WORLD_WIDTH ∧
    0 ≤ shipMoving.position.y ∧ shipMoving.position.y ≤ WORLD_HEIGHT ∧
    0 ≤ shipMoving.speedBoost ∧
    SHIP_MAX_SPEED * shipMoving.speedBoost ≤ WORLD_HEIGHT ∧
    (0 ≤ (shipMoving.update testOps).position.x ∧
      (shipMoving.update testOps).position.x ≤ WORLD_WIDTH ∧
      0 ≤ (shipMoving.update testOps).position.y ∧
      (shipMoving.update testOps).position.y ≤ WORLD_HEIGHT) :=
  ⟨rfl, by with_unfolding_all decide, by with_unfolding_all decide,
   by with_unfolding_all decide, by with_unfolding_all decide,
   by with_unfolding_all decide, by with_unfolding_all decide,
   ship_update_wrap_invariant testOps shipMoving testOps_sqrt_nonneg testOps_sqrt_sq
     rfl (by with_unfolding_all decide) (by with_unfolding_all decide)
     (by with_unfolding_all decide) (by with_unfolding_all decide)
     (by with_unfolding_all decide) (by with_unfolding_all decide)⟩

-- Helper lemmas for the seeker lifetime claims.

/-- A seeker with no assigned target is left completely unchanged by
`update` (the early return skips even the lifetime decrement). -/
theorem seeker_update_no_target (ops : RealOps) (s : SeekerDrone)
    (h : s.targetShip = none) : SeekerDrone.update ops s = s := by
  unfold SeekerDrone.update
  rw [h]
  by_cases hb : s.active = true <;> simp [hb]

/-- One active, targeted update step: the active flag and target are
preserved and the lifetime decreases by exactly one. -/
theorem seeker_update_step (ops : RealOps) (s : SeekerDrone) (tp : Vec2)
    (ha : s.active = true) (ht : s.targetShip = some tp) :
    (SeekerDrone.update ops s).active = true ∧
    (SeekerDrone.update ops s).targetShip = some tp ∧
    (SeekerDrone.update ops s).lifetime = s.lifetime - 1 := by
  unfold SeekerDrone.update
  rw [ht]
  simp [ha]

/-- Iterated active, targeted updates drop the lifetime by exactly the
number of steps. -/
theorem seeker_iterate_lifetime (ops : RealOps) (tp : Vec2) :
    ∀ (n : Nat) (s : SeekerDrone), s.active = true → s.targetShip = some tp →
      ((SeekerDrone.update ops)^[n] s).lifetime = s.lifetime - n ∧
      ((SeekerDrone.update ops)^[n] s).active = true ∧
      ((SeekerDrone.update ops)^[n] s).targetShip = some tp := by
  intro n
  induction n with
  | zero => intro s ha ht; simpa using ⟨ha, ht⟩
  | succ n ih =>
    intro s ha ht
    rw [Function.iterate_succ_apply]
    obtain ⟨h1, h2, h3⟩ := seeker_update_step ops s tp ha ht
    obtain ⟨ih1, ih2, ih3⟩ := ih (SeekerDrone.update ops s) h1 h2
    refine ⟨?_, ih2, ih3⟩
    rw [ih1, h3]
    push_cast
    ring

/-- C6 amended: a SeekerDrone that is active and HAS an assigned target
expires after maxLifetime (20 seconds at 60 ticks = 1200) consecutive
updates; without a target the update is a no-op that does not even age the
drone (see the counterexample). -/
theorem seeker_expires_with_target (ops : RealOps) (s : SeekerDrone) (tp : Vec2)
    (ha : s.active = true) (ht : s.targetShip = some tp)
    (hl : s.lifetime = SeekerDrone.maxLifetime) :
    ((SeekerDrone.update ops)^[1200] s).isExpired = true := by
  obtain ⟨h1, _, _⟩ := seeker_iterate_lifetime ops tp 1200 s ha ht
  unfold SeekerDrone.isExpired
  rw [h1, hl]
  norm_num [SeekerDrone.maxLifetime]

/-- A freshly spawned seeker that never gets a target assigned. -/
def seekerNoTarget : SeekerDrone := (SeekerDrone.new testOps ctx0 ⟨100, 100⟩).1

/-- C6 counterexample: an active seeker with NO assigned target is not
expired even after 1200 (= maxLifetime) consecutive updates, because the
targetless early return skips the lifetime decrement; this contradicts the
claim's "whether or not a target ship has been assigned". -/
theorem seeker_no_target_never_expires :
    seekerNoTarget.active = true ∧ seekerNoTarget.targetShip = none ∧
    ((SeekerDrone.update testOps)^[1200] seekerNoTarget).isExpired = false := by
  have hfix : SeekerDrone.update testOps seekerNoTarget = seekerNoTarget :=
    seeker_update_no_target testOps seekerNoTarget rfl
  refine ⟨rfl, rfl, ?_⟩
  rw [Function.iterate_fixed hfix]
  rfl

/-- The same freshly spawned seeker with a target assigned. -/
def seekerWithTarget : SeekerDrone :=
  ((SeekerDrone.new testOps ctx0 ⟨100, 100⟩).1).setTarget ⟨600, 600⟩

/-- C6 witness: the amended expiry theorem applied to a concrete targeted
seeker. -/
theorem seeker_expires_with_target_witness :
    seekerWithTarget.active = true ∧
    seekerWithTarget.targetShip = some ⟨600, 600⟩ ∧
    seekerWithTarget.lifetime = SeekerDrone.maxLifetime ∧
    ((SeekerDrone.update testOps)^[1200] seekerWithTarget).isExpired = true :=
  ⟨rfl, rfl, rfl,
   seeker_expires_with_target testOps seekerWithTarget ⟨600, 600⟩ rfl rfl rfl⟩

-- Helper lemmas for takeDamage.

/-- takeDamage is a no-op returning false while invulnerable or dead. -/
theorem takeDamage_noop (s : Ship)
    (h : s.isInvulnerable = true ∨ s.isDead = true) :
    s.takeDamage = (s, false) := by
  unfold Ship.takeDamage
  rcases h with h | h <;> simp [h]

/-- A successful takeDamage decrements lives, clears the cargo, starts the
invulnerability window, and reports death exactly when lives reach 0. -/
theorem takeDamage_fields (s : Ship)
    (h1 : s.isInvulnerable = false) (h2 : s.isDead = false) :
    (s.takeDamage).1.lives = s.lives - 1 ∧
    (s.takeDamage).1.cargo = List.replicate s.cargo.length none ∧
    (s.takeDamage).1.invulnerabilityTimer = INVULNERABILITY_TIME ∧
    (s.takeDamage).2 = decide (s.lives - 1 ≤ 0) := by
  unfold Ship.takeDamage Ship.clearCargo
  simp only [h1, h2, Bool.or_self, Bool.false_eq_true, if_false]
  split_ifs with h3 <;> simp_all

/-- C7: `takeDamage` is a no-op returning false while invulnerable or dead;
otherwise it decrements lives by one, clears all cargo, sets the
invulnerability timer to INVULNERABILITY_TIME and returns whether lives are
then at most 0; consequently a second `takeDamage` immediately after a
successful one (inside the invulnerability window) decrements lives exactly
once in total. -/
theorem takeDamage_spec (s : Ship) :
    ((s.isInvulnerable = true ∨ s.isDead = true) → s.takeDamage = (s, false)) ∧
    (s.isInvulnerable = false → s.isDead = false →
      (s.takeDamage).1.lives = s.lives - 1 ∧
      (s.takeDamage).1.cargo = List.replicate s.cargo.length none ∧
      (s.takeDamage).1.invulnerabilityTimer = INVULNERABILITY_TIME ∧
      (s.takeDamage).2 = decide (s.lives - 1 ≤ 0)) ∧
    (s.isInvulnerable = false → s.isDead = false →
      ((s.takeDamage).1.takeDamage).1.lives = s.lives - 1) := by
  refine ⟨takeDamage_noop s, takeDamage_fields s, fun h1 h2 => ?_⟩
  obtain ⟨hl, _, hi, _⟩ := takeDamage_fields s h1 h2
  have hinv : (s.takeDamage).1.isInvulnerable = true := by
    unfold Ship.isInvulnerable
    rw [hi]
    decide
  have hno : ((s.takeDamage).1).takeDamage = ((s.takeDamage).1, false) :=
    takeDamage_noop _ (Or.inl hinv)
  rw [hno]
  exact hl

/-- C7 witness: the spec applied to a fresh ship (3 lives, vulnerable):
one hit leaves 2 lives, and a second immediate hit still leaves 2 lives. -/
theorem takeDamage_spec_witness :
    ship0.isInvulnerable = false ∧ ship0.isDead = false ∧
    (ship0.takeDamage).1.lives = ship0.lives - 1 ∧
    ((ship0.takeDamage).1.takeDamage).1.lives = ship0.lives - 1 :=
  ⟨rfl, rfl, ((takeDamage_spec ship0).2.1 rfl rfl).1,
   (takeDamage_spec ship0).2.2 rfl rfl⟩

/-- C8: `addCargo` caps the cargo at MAX_CARGO_SLOTS occupied slots, fills
the first empty slot (the slot found by findIndex on empty slots), and on a
ship whose slots are all occupied returns false leaving the cargo (and the
whole ship) unchanged. -/
theorem addCargo_spec (s : Ship) (t : OrbType) :
    (s.cargo.length = MAX_CARGO_SLOTS →
      (s.addCargo t).1.getCargoCount ≤ MAX_CARGO_SLOTS) ∧
    (∀ i, s.cargo.findIdx? (fun slot => slot.isNone) = some i →
      s.addCargo t = ({ s with cargo := s.cargo.set i (some t) }, true)) ∧
    ((∀ slot ∈ s.cargo, slot.isSome = true) → s.addCargo t = (s, false)) := by
  refine ⟨?_, ?_, ?_⟩
  · intro hlen
    unfold Ship.addCargo Ship.getCargoCount
    cases h : s.cargo.findIdx? fun slot => slot.isNone with
    | none =>
      dsimp only
      calc (s.cargo.filter fun it => it.isSome).length ≤ s.cargo.length :=
            s.cargo.length_filter_le _
        _ = MAX_CARGO_SLOTS := hlen
    | some i =>
      dsimp only
      calc ((s.cargo.set i (some t)).filter fun it => it.isSome).length
          ≤ (s.cargo.set i (some t)).length := (s.cargo.set i (some t)).length_filter_le _
        _ = s.cargo.length := s.cargo.length_set i (some t)
        _ = MAX_CARGO_SLOTS := hlen
  · intro i h
    unfold Ship.addCargo
    rw [h]
  · intro h
    have hnone : s.cargo.findIdx? (fun slot => slot.isNone) = none := by
      rw [List.findIdx?_eq_none_iff]
      intro x hx
      simp [Option.isNone_eq_false_iff, Option.isSome_iff_ne_none]
      exact Option.isSome_iff_ne_none.mp (h x hx)
    unfold Ship.addCargo
    rw [hnone]

/-- A ship with all four cargo slots occupied. -/
def shipFull : Ship :=
  { ship0 with cargo := [some OrbType.red, some OrbType.red,
                         some OrbType.blue, some OrbType.green] }

/-- C8 witness: the spec applied to a concrete full ship: the add fails and
leaves the ship unchanged, and the occupied-slot bound holds. -/
theorem addCargo_spec_witness :
    shipFull.cargo.length = MAX_CARGO_SLOTS ∧
    (∀ slot ∈ shipFull.cargo, slot.isSome = true) ∧
    (shipFull.addCargo OrbType.gold).1.getCargoCount ≤ MAX_CARGO_SLOTS ∧
    shipFull.addCargo OrbType.gold = (shipFull, false) :=
  ⟨rfl, by decide, (addCargo_spec shipFull OrbType.gold).1 rfl,
   (addCargo_spec shipFull OrbType.gold).2.2 (by decide)⟩

/-- C9: banking outside the banking zone or with empty cargo is an atomic
no-op: the returned grid state is the input state (ship cargo, hazards,
boost zones, lastAttackResult, attackMessageTimer, screenShake all
unchanged), the threaded state is untouched, and no bank event is emitted. -/
theorem bankOrbs_noop (ops : RealOps) (c : Ctx) (g : GridState)
    (h : g.wormhole.isInBankingZone g.ship.position = false ∨
         g.ship.isCargoEmpty = true) :
    GridState.bankOrbs ops c g = (g, c, none) := by
  unfold GridState.bankOrbs
  rcases h with h | h <;> simp [h]

/-- C9 witness: the no-op theorem applied to the initial player grid, whose
ship sits 200 units from the hub (outside the 120-unit banking zone). -/
theorem bankOrbs_noop_witness :
    grid0.wormhole.isInBankingZone grid0.ship.position = false ∧
    GridState.bankOrbs testOps ctx0 grid0 = (grid0, ctx0, none) :=
  ⟨by with_unfolding_all decide,
   bankOrbs_noop testOps ctx0 grid0 (Or.inl (by with_unfolding_all decide))⟩

-- Helper lemmas for the no-nuke bound on short cargo.

/-- An attack result that is not the nuke attack: tier below 4 and no nuke
hazard. -/
def attackNoNuke (r : AttackResult) : Prop :=
  r.tier ≠ AttackTier.tier4 ∧ ∀ h ∈ r.hazards, h.type ≠ HazardType.nuke

/-- Forall-membership over an explicit cons cell. -/
theorem forall_mem_cons_of {α : Type} {P : α → Prop} {a : α} {l : List α}
    (ha : P a) (hl : ∀ x ∈ l, P x) : ∀ x ∈ a :: l, P x := by
  intro x hx
  rcases List.mem_cons.mp hx with rfl | hx
  · exact ha
  · exact hl x hx

/-- Forall-membership over the empty list. -/
theorem forall_mem_nil_of {α : Type} {P : α → Prop} : ∀ x ∈ ([] : List α), P x := by
  intro x hx
  cases hx

/-- Mapping Hazard.asteroid never yields a nuke-typed hazard. -/
theorem hazard_type_map_asteroid (l : List Asteroid) :
    ∀ h ∈ l.map Hazard.asteroid, Hazard.type h ≠ HazardType.nuke := by
  intro h hh
  obtain ⟨a, -, rfl⟩ := List.mem_map.mp hh
  simp [Hazard.type]

/-- Mapping Hazard.seeker never yields a nuke-typed hazard. -/
theorem hazard_type_map_seeker (l : List SeekerDrone) :
    ∀ h ∈ l.map Hazard.seeker, Hazard.type h ≠ HazardType.nuke := by
  intro h hh
  obtain ⟨a, -, rfl⟩ := List.mem_map.mp hh
  simp [Hazard.type]

/-- Mapping Hazard.mine never yields a nuke-typed hazard. -/
theorem hazard_type_map_mine (l : List Mine) :
    ∀ h ∈ l.map Hazard.mine, Hazard.type h ≠ HazardType.nuke := by
  intro h hh
  obtain ⟨a, -, rfl⟩ := List.mem_map.mp hh
  simp [Hazard.type]

/-- spawnTier1Attack never produces a nuke or tier 4. -/
theorem spawnTier1Attack_noNuke (ops : RealOps) (c : Ctx) (ty : OrbType)
    (ship : Ship) (wp : Vec2) : attackNoNuke (spawnTier1Attack ops c ty ship wp).1 := by
  cases ty
  case red => exact ⟨fun hEq => AttackTier.noConfusion hEq, hazard_type_map_asteroid _⟩
  case blue =>
    exact ⟨fun hEq => AttackTier.noConfusion hEq,
      forall_mem_cons_of (by simp [Hazard.type]) forall_mem_nil_of⟩
  case green => exact ⟨fun hEq => AttackTier.noConfusion hEq, by intro h hh; cases hh⟩
  case gold => exact ⟨fun hEq => AttackTier.noConfusion hEq, by intro h hh; cases hh⟩

/-- spawnEnhancedAttack never produces a nuke or tier 4. -/
theorem spawnEnhancedAttack_noNuke (ops : RealOps) (c : Ctx) (ty : OrbType)
    (ship : Ship) (wp : Vec2) :
    attackNoNuke (spawnEnhancedAttack ops c ty ship wp).1 := by
  cases ty
  case red => exact ⟨fun hEq => AttackTier.noConfusion hEq, hazard_type_map_asteroid _⟩
  case blue => exact ⟨fun hEq => AttackTier.noConfusion hEq, hazard_type_map_seeker _⟩
  case green => exact ⟨fun hEq => AttackTier.noConfusion hEq, by intro h hh; cases hh⟩
  case gold => exact ⟨fun hEq => AttackTier.noConfusion hEq, by intro h hh; cases hh⟩

/-- spawnTier2Attack never produces a nuke or tier 4. -/
theorem spawnTier2Attack_noNuke (ops : RealOps) (c : Ctx) (ty : OrbType)
    (ship : Ship) (wp : Vec2) : attackNoNuke (spawnTier2Attack ops c ty ship wp).1 := by
  cases ty
  case red => exact ⟨fun hEq => AttackTier.noConfusion hEq, hazard_type_map_asteroid _⟩
  case blue => exact ⟨fun hEq => AttackTier.noConfusion hEq, hazard_type_map_seeker _⟩
  case green => exact ⟨fun hEq => AttackTier.noConfusion hEq, hazard_type_map_mine _⟩
  case gold => exact ⟨fun hEq => AttackTier.noConfusion hEq, by intro h hh; cases hh⟩

/-- spawnChaosStorm never produces a nuke or tier 4. -/
theorem spawnChaosStorm_noNuke (ops : RealOps) (c : Ctx)
    (ship : Ship) (wp : Vec2) : attackNoNuke (spawnChaosStorm ops c ship wp).1 := by
  exact ⟨fun hEq => AttackTier.noConfusion hEq,
    forall_mem_cons_of (by simp [Hazard.type])
      (forall_mem_cons_of (by simp [Hazard.type])
        (forall_mem_cons_of (by simp [Hazard.type])
          (forall_mem_cons_of (by simp [Hazard.type])
            (forall_mem_cons_of (by simp [Hazard.type]) forall_mem_nil_of))))⟩

/-- spawnMegaAttack never produces a nuke or tier 4. -/
theorem spawnMegaAttack_noNuke (ops : RealOps) (c : Ctx) (ty : OrbType)
    (ship : Ship) (wp : Vec2) : attackNoNuke (spawnMegaAttack ops c ty ship wp).1 := by
  cases ty
  case red => exact ⟨fun hEq => AttackTier.noConfusion hEq, hazard_type_map_asteroid _⟩
  case blue => exact ⟨fun hEq => AttackTier.noConfusion hEq, hazard_type_map_seeker _⟩
  case green => exact ⟨fun hEq => AttackTier.noConfusion hEq, hazard_type_map_mine _⟩
  case gold => exact ⟨fun hEq => AttackTier.noConfusion hEq, by intro h hh; cases hh⟩

/-- attackNoNuke distributes over an if-branch when both branches have it. -/
theorem attackNoNuke_ite (cnd : Prop) [Decidable cnd] (A B : AttackResult × Ctx)
    (hA : attackNoNuke A.1) (hB : attackNoNuke B.1) :
    attackNoNuke (if cnd then A else B).1 := by
  by_cases h : cnd
  · rwa [if_pos h]
  · rwa [if_neg h]

/-- C10 (implicit): a cargo of length at most MAX_CARGO_SLOTS = 4 can never
contain the 8 gold orbs of the nuke branch, so `translateCargoToAttack`
never returns tier 4 and never spawns a Nuke hazard; and `clearCargo`
returns at most as many orbs as there are slots, so whole-cargo banking can
never produce a nuke. -/
theorem translate_short_cargo_no_nuke (ops : RealOps) (c : Ctx)
    (cargo : List OrbType) (ship : Ship) (wp : Vec2)
    (hlen : cargo.length ≤ MAX_CARGO_SLOTS) :
    ((translateCargoToAttack ops c cargo ship wp).1.tier ≠ AttackTier.tier4 ∧
      ∀ h ∈ (translateCargoToAttack ops c cargo ship wp).1.hazards,
        h.type ≠ HazardType.nuke) ∧
    ∀ s : Ship, (Ship.clearCargo s).1.length ≤ s.cargo.length := by
  constructor
  · have hc : cargo.count OrbType.gold ≤ cargo.length := List.count_le_length _ _
    have hgold : ¬(8 ≤ cargo.count OrbType.gold) := by
      unfold MAX_CARGO_SLOTS at hlen
      omega
    show attackNoNuke (translateCargoToAttack ops c cargo ship wp).1
    unfold translateCargoToAttack
    rw [if_neg hgold]
    refine attackNoNuke_ite _ _ _ (spawnMegaAttack_noNuke ops c _ ship wp) ?_
    refine attackNoNuke_ite _ _ _ (spawnMegaAttack_noNuke ops c _ ship wp) ?_
    refine attackNoNuke_ite _ _ _ (spawnMegaAttack_noNuke ops c _ ship wp) ?_
    refine attackNoNuke_ite _ _ _ (spawnChaosStorm_noNuke ops c ship wp) ?_
    refine attackNoNuke_ite _ _ _ (spawnTier2Attack_noNuke ops c _ ship wp) ?_
    refine attackNoNuke_ite _ _ _ (spawnTier2Attack_noNuke ops c _ ship wp) ?_
    refine attackNoNuke_ite _ _ _ (spawnTier2Attack_noNuke ops c _ ship wp) ?_
    refine attackNoNuke_ite _ _ _ (spawnEnhancedAttack_noNuke ops c _ ship wp) ?_
    refine attackNoNuke_ite _ _ _ (spawnEnhancedAttack_noNuke ops c _ ship wp) ?_
    refine attackNoNuke_ite _ _ _ (spawnEnhancedAttack_noNuke ops c _ ship wp) ?_
    refine attackNoNuke_ite _ _ _ (spawnTier1Attack_noNuke ops c _ ship wp) ?_
    refine attackNoNuke_ite _ _ _ (spawnTier1Attack_noNuke ops c _ ship wp) ?_
    refine attackNoNuke_ite _ _ _ (spawnTier1Attack_noNuke ops c _ ship wp) ?_
    exact ⟨fun hEq => AttackTier.noConfusion hEq, forall_mem_nil_of⟩
  · intro s
    unfold Ship.clearCargo
    exact List.length_filterMap_le _ _

/-- C10 witness: even the maximal all-gold 4-slot cargo stays below tier 4
and spawns no nuke. -/
theorem translate_short_cargo_no_nuke_witness :
    ([OrbType.gold, OrbType.gold, OrbType.gold, OrbType.gold] : List OrbType).length ≤
      MAX_CARGO_SLOTS ∧
    (translateCargoToAttack testOps ctx0
      [OrbType.gold, OrbType.gold, OrbType.gold, OrbType.gold]
      ship0 wp0).1.tier ≠ AttackTier.tier4 :=
  ⟨by decide,
   ((translate_short_cargo_no_nuke testOps ctx0
      [OrbType.gold, OrbType.gold, OrbType.gold, OrbType.gold]
      ship0 wp0 (by decide)).1).1⟩
